import Mathlib

/-!
# Snake game state machines: formal model

Shallow embedding of the two Snake implementations in this repository
(`snake-game-chatgpt/src/components/SnakeGame.jsx` and
`snake-game-agent/src/components/SnakeGame.jsx`), restricted to the game
state machine: direction handling, per-tick update (movement, wraparound,
self-collision, growth, food placement), reset, and high-score persistence.

Randomness is made explicit: every call site of `Math.random()` becomes an
extra natural-number parameter (the random draw), reduced modulo the range
the source computes with `Math.floor(Math.random() * n)`.  The persisted
high-score store (`localStorage`) is modelled by an `Option Nat` output:
`some v` when the code calls `setItem` with value `v` during the operation,
`none` when it does not.
-/

namespace SnakeProof

/-- A grid cell / 2-d integer vector, as the `{x, y}` objects of the source. -/
structure Cell where
  x : Int
  y : Int
deriving DecidableEq

/-- JavaScript `((n % m) + m) % m` (the `mod` helper of the chatgpt
implementation); JS `%` is the truncated remainder, i.e. `Int.tmod`. -/
def jsmod (n m : Int) : Int := (Int.tmod n m + m).tmod m

/-- Negation of a direction vector (used only in statements). -/
def negDir (d : Cell) : Cell := ⟨-d.x, -d.y⟩

/-- `Number(localStorage.getItem(key) || 0)` at component load: a missing
stored value reads as 0.  (The agent implementation's
`parseInt(localStorage.getItem(...) || '0', 10)` reads the same way.) -/
def loadHighScore (stored : Option Nat) : Nat :=
  match stored with
  | none => 0
  | some v => v

namespace ChatGPT

/-- Grid width, `GRID_COLS = 20`. -/
def GRID_COLS : Int := 20

/-- Grid height, `GRID_ROWS = 20`. -/
def GRID_ROWS : Int := 20

/-- `INITIAL_SPEED = 6` ticks per second. -/
def INITIAL_SPEED : Rat := 6

/-- `SPEED_INCREASE = 0.5` per food. -/
def SPEED_INCREASE : Rat := 1 / 2

/-- `INITIAL_SNAKE = [{x:9,y:9},{x:8,y:9},{x:7,y:9}]`. -/
def INITIAL_SNAKE : List Cell := [⟨9, 9⟩, ⟨8, 9⟩, ⟨7, 9⟩]

/-- The React state of the component (the fields the game logic touches). -/
structure GameState where
  snake : List Cell
  dir : Cell
  nextDir : Option Cell
  food : Cell
  speed : Rat
  running : Bool
  score : Nat
  highScore : Nat
deriving DecidableEq

/-- All grid cells in the order `placeFood` scans them (`x` outer, `y` inner). -/
def allCells : List Cell :=
  (List.range 20).flatMap fun x => (List.range 20).map fun y => ⟨(x : Int), (y : Int)⟩

/-- The `free` list built by `placeFood`: grid cells not occupied by the snake
(the source's string-keyed `Set` membership is exact cell equality). -/
def freeCells (snakeArr : List Cell) : List Cell :=
  allCells.filter fun c => !(snakeArr.any fun s => s.x == c.x && s.y == c.y)

/-- `placeFood(snakeArr)`: pick a uniformly random free cell, falling back to
`{x:0,y:0}` when every cell is occupied.  `k` is the random draw;
`Math.floor(Math.random() * free.length)` is a uniform index below
`free.length`, modelled as `k % free.length`. -/
def placeFood (snakeArr : List Cell) (k : Nat) : Cell :=
  let free := freeCells snakeArr
  if free.length = 0 then ⟨0, 0⟩
  else free.getD (k % free.length) ⟨0, 0⟩

/-- `trySetDir(newDir)`: reject the exact reverse of the active direction,
otherwise queue the request for the next tick.  (The source's `if (!dir)`
guard is dead code: `dir` is initialised to an object and only ever assigned
objects, and JS objects are truthy.) -/
def trySetDir (s : GameState) (newDir : Cell) : GameState :=
  if s.dir.x + newDir.x = 0 ∧ s.dir.y + newDir.y = 0 then s
  else { s with nextDir := some newDir }

/-- `nextDir || dir`: the direction the tick moves in. -/
def appliedDir (s : GameState) : Cell := s.nextDir.getD s.dir

/-- The tick's new head: current head plus applied direction, each axis
passed through the `mod` helper.  (`prev[0]` on the always-nonempty snake;
the `⟨0,0⟩` default is never reached for a nonempty snake.) -/
def newHead (s : GameState) : Cell :=
  let head := s.snake.headD ⟨0, 0⟩
  let d := appliedDir s
  ⟨jsmod (head.x + d.x) GRID_COLS, jsmod (head.y + d.y) GRID_ROWS⟩

/-- The tick's self-collision check, `prev.some(s => s.x === newHead.x && s.y === newHead.y)`. -/
def hitsSelf (s : GameState) : Bool :=
  s.snake.any fun c => c.x == (newHead s).x && c.y == (newHead s).y

/-- One `tick()`, combined with the `handleGameOver()` it calls on collision.
Returns the next state and the value written to the high-score store this
tick (if any).  `k` is the random draw used by `placeFood` when food is
eaten.  Note the queued direction is committed (`setDir`/`setNextDir(null)`)
before the collision check, in all branches, as in the source. -/
def tick (s : GameState) (k : Nat) : GameState × Option Nat :=
  let d := appliedDir s
  let nh := newHead s
  if hitsSelf s then
    let newHS := max s.highScore s.score
    ({ s with dir := d, nextDir := none, running := false, highScore := newHS },
     some newHS)
  else if nh.x = s.food.x ∧ nh.y = s.food.y then
    let grown := nh :: s.snake
    ({ s with dir := d, nextDir := none, snake := grown,
              score := s.score + 1, speed := s.speed + SPEED_INCREASE,
              food := placeFood grown k },
     none)
  else
    ({ s with dir := d, nextDir := none, snake := (nh :: s.snake).dropLast },
     none)

/-- The component's initial game state (the `useState` initialisers), with
the loaded high score `hs` and the random draw `k` for the initial food. -/
def initState (hs : Nat) (k : Nat) : GameState :=
  { snake := INITIAL_SNAKE, dir := ⟨1, 0⟩, nextDir := none,
    food := placeFood INITIAL_SNAKE k, speed := INITIAL_SPEED,
    running := true, score := 0, highScore := hs }

/-- `resetGame()`: restore every game field to its initial value (the high
score is not touched, and nothing is written to the store). -/
def resetGame (s : GameState) (k : Nat) : GameState :=
  { s with snake := INITIAL_SNAKE, dir := ⟨1, 0⟩, nextDir := none,
           food := placeFood INITIAL_SNAKE k, speed := INITIAL_SPEED,
           running := true, score := 0 }

end ChatGPT

namespace Agent

/-- `ROWS = CANVAS_SIZE / SCALE = 400 / 20 = 20` (the grid is square). -/
def ROWS : Int := 20

/-- The component's state: the refs and state the game logic touches
(`snakeRef`, `velocityRef`, `appleRef`, `scoreRef`/`score`, `speedRef`,
`highScore`, `running`). -/
structure AState where
  snake : List Cell
  velocity : Cell
  apple : Cell
  score : Nat
  speed : Nat
  highScore : Nat
  running : Bool
deriving DecidableEq

/-- The keys the handler reacts to with a direction change. -/
inductive Key where
  | up
  | down
  | left
  | right
deriving DecidableEq

/-- `handleKey`: set the velocity immediately (no queue), unless the key is
the reverse of the current axis of motion. -/
def handleKey (v : Cell) (k : Key) : Cell :=
  match k with
  | .up => if v.y ≠ 1 then ⟨0, -1⟩ else v
  | .down => if v.y ≠ -1 then ⟨0, 1⟩ else v
  | .left => if v.x ≠ 1 then ⟨-1, 0⟩ else v
  | .right => if v.x ≠ -1 then ⟨1, 0⟩ else v

/-- The direction each handled key requests (`ArrowUp ↦ (0,-1)` etc.),
read off the assignments in `handleKey`; used only in statements. -/
def keyDir (k : Key) : Cell :=
  match k with
  | .up => ⟨0, -1⟩
  | .down => ⟨0, 1⟩
  | .left => ⟨-1, 0⟩
  | .right => ⟨1, 0⟩

/-- `randomApple()`: a uniformly random grid cell, with no reference to the
snake.  `r1`, `r2` are the two `Math.floor(Math.random() * ROWS)` draws,
modelled as `r % 20`. -/
def randomApple (r1 r2 : Nat) : Cell := ⟨(r1 % 20 : Nat), (r2 % 20 : Nat)⟩

/-- `reset()`: fresh snake, velocity, apple, score and speed; `highScore`
and the store are not touched. -/
def reset (s : AState) (r1 r2 : Nat) : AState :=
  { snake := [⟨10, 10⟩], velocity := ⟨1, 0⟩, apple := randomApple r1 r2,
    score := 0, speed := 8, highScore := s.highScore, running := true }

/-- One axis of the wraparound clamp in `update()`:
`if (h < 0) h = ROWS - 1; if (h >= ROWS) h = 0`. -/
def wrap (n : Int) : Int :=
  if n < 0 then ROWS - 1 else if n ≥ ROWS then 0 else n

/-- The new head computed by `update()`: head plus velocity, clamped. -/
def newHeadA (s : AState) : Cell :=
  let head := s.snake.headD ⟨0, 0⟩
  ⟨wrap (head.x + s.velocity.x), wrap (head.y + s.velocity.y)⟩

/-- The self-collision loop of `update()`:
`for (part of snake) if (part.x === head.x && part.y === head.y)`. -/
def hitsSelfA (s : AState) : Bool :=
  s.snake.any fun p => p.x == (newHeadA s).x && p.y == (newHeadA s).y

/-- One `update()`.  On self-collision: write the high score to the store
if the run's score exceeds it, then `reset()`.  Otherwise move, and on
eating grow, bump score and speed, and redraw the apple.  Returns the next
state and the value written to the store (if any); `r1 r2` are the random
draws for whichever `randomApple()` call this update makes. -/
def update (s : AState) (r1 r2 : Nat) : AState × Option Nat :=
  let nh := newHeadA s
  if hitsSelfA s then
    if s.score > s.highScore then
      (reset { s with highScore := s.score } r1 r2, some s.score)
    else
      (reset s r1 r2, none)
  else
    let snake1 := nh :: s.snake
    if nh.x = s.apple.x ∧ nh.y = s.apple.y then
      let next := s.score + 1
      ({ s with snake := snake1, score := next, speed := 8 + next / 5,
                apple := randomApple r1 r2 },
       none)
    else
      ({ s with snake := snake1.dropLast }, none)

/-- The initial ref/state values of the component, with loaded high score `hs`. -/
def initAState (hs : Nat) : AState :=
  { snake := [⟨10, 10⟩], velocity := ⟨1, 0⟩, apple := ⟨5, 5⟩,
    score := 0, speed := 8, highScore := hs, running := true }

/-- The Restart button's `onClick`: write the high score if the current
score exceeds it, then `reset()`. -/
def restartClick (s : AState) (r1 r2 : Nat) : AState × Option Nat :=
  if s.score > s.highScore then
    (reset { s with highScore := s.score } r1 r2, some s.score)
  else
    (reset s r1 r2, none)

end Agent

/-! ### Concrete states used to instantiate the theorems -/

/-- A chatgpt-implementation state about to run into itself: the head `(0,0)`
moves right into the neck `(1,0)`. -/
def exTermCG : ChatGPT.GameState :=
  { snake := [⟨0, 0⟩, ⟨1, 0⟩], dir := ⟨1, 0⟩, nextDir := none, food := ⟨5, 5⟩,
    speed := 6, running := true, score := 0, highScore := 0 }

/-- Like `exTermCG` but with score 3 and a stored high score of 5: the run's
score does not exceed the stored value. -/
def exTermCG2 : ChatGPT.GameState :=
  { snake := [⟨0, 0⟩, ⟨1, 0⟩], dir := ⟨1, 0⟩, nextDir := none, food := ⟨5, 5⟩,
    speed := 6, running := true, score := 3, highScore := 5 }

/-- An agent-implementation state about to run into itself. -/
def exTermAG : Agent.AState :=
  { snake := [⟨3, 3⟩, ⟨2, 3⟩], velocity := ⟨-1, 0⟩, apple := ⟨0, 0⟩,
    score := 0, speed := 8, highScore := 0, running := true }

/-- A chatgpt-implementation state about to eat: head `(4,5)` moves right
onto the food at `(5,5)`. -/
def exEatCG : ChatGPT.GameState :=
  { snake := [⟨4, 5⟩, ⟨3, 5⟩], dir := ⟨1, 0⟩, nextDir := none, food := ⟨5, 5⟩,
    speed := 6, running := true, score := 0, highScore := 0 }

/-- An agent-implementation state about to eat the apple at `(5,5)`. -/
def exEatAG : Agent.AState :=
  { snake := [⟨4, 5⟩], velocity := ⟨1, 0⟩, apple := ⟨5, 5⟩,
    score := 0, speed := 8, highScore := 0, running := true }

/-- A chatgpt-implementation state whose head moves into the cell occupied by
the current tail (a 2×2 loop moving clockwise). -/
def exTailCG : ChatGPT.GameState :=
  { snake := [⟨0, 0⟩, ⟨1, 0⟩, ⟨1, 1⟩, ⟨0, 1⟩], dir := ⟨0, 1⟩, nextDir := none,
    food := ⟨5, 5⟩, speed := 6, running := true, score := 1, highScore := 0 }

/-- The agent-implementation analogue of `exTailCG`. -/
def exTailAG : Agent.AState :=
  { snake := [⟨0, 0⟩, ⟨1, 0⟩, ⟨1, 1⟩, ⟨0, 1⟩], velocity := ⟨0, 1⟩, apple := ⟨5, 5⟩,
    score := 1, speed := 8, highScore := 0, running := true }

/-- A fresh chatgpt-implementation state (used for direction-queue and
invariant instantiations). -/
def exInitCG : ChatGPT.GameState := ChatGPT.initState 0 0

/-- A chatgpt-implementation state with its head at the right edge `(19,7)`,
moving right. -/
def exWrapCG : ChatGPT.GameState :=
  { snake := [⟨19, 7⟩], dir := ⟨1, 0⟩, nextDir := none, food := ⟨5, 5⟩,
    speed := 6, running := true, score := 0, highScore := 0 }

/-- An agent-implementation state with its head at the right edge `(19,7)`,
moving right. -/
def exWrapAG : Agent.AState :=
  { snake := [⟨19, 7⟩], velocity := ⟨1, 0⟩, apple := ⟨5, 5⟩,
    score := 0, speed := 8, highScore := 0, running := true }

/-! ### Basic lemmas -/

theorem cell_eq_iff (a b : Cell) : a = b ↔ a.x = b.x ∧ a.y = b.y := by
  cases a
  cases b
  simp

theorem mem_of_getLast?_eq {α : Type} {l : List α} {a : α} (h : l.getLast? = some a) :
    a ∈ l := by
  obtain ⟨hne, rfl⟩ := List.mem_getLast?_eq_getLast (Option.mem_def.mpr h)
  exact List.getLast_mem hne

theorem jsmod_eq_emod (n : Int) : jsmod n 20 = n % 20 := by
  unfold jsmod
  cases n with
  | ofNat a =>
    have h1 : (Int.ofNat a).tmod 20 = Int.ofNat (a % 20) := rfl
    rw [h1, Int.tmod_eq_emod (by simp [Int.ofNat_eq_natCast]; omega) (by omega)]
    simp only [Int.ofNat_eq_natCast]
    omega
  | negSucc a =>
    have h1 : (Int.negSucc a).tmod 20 = -Int.ofNat ((a + 1) % 20) := rfl
    rw [h1, Int.tmod_eq_emod (by simp [Int.ofNat_eq_natCast]; omega) (by omega)]
    simp only [Int.ofNat_eq_natCast, Int.negSucc_eq]
    omega

namespace ChatGPT

theorem mem_freeCells (l : List Cell) (c : Cell) :
    c ∈ freeCells l ↔ c ∈ allCells ∧ c ∉ l := by
  simp only [freeCells, List.mem_filter, Bool.not_eq_true', List.any_eq_false,
    Bool.and_eq_true, beq_iff_eq, not_and]
  constructor
  · rintro ⟨hmem, hfree⟩
    refine ⟨hmem, fun hc => ?_⟩
    exact hfree c hc rfl rfl
  · rintro ⟨hmem, hnot⟩
    refine ⟨hmem, fun s hs hsx hsy => ?_⟩
    exact hnot (by rwa [(cell_eq_iff s c).mpr ⟨hsx, hsy⟩] at hs)

theorem placeFood_mem_free (l : List Cell) (k : Nat) (h : freeCells l ≠ []) :
    placeFood l k ∈ freeCells l := by
  unfold placeFood
  have hlen : (freeCells l).length ≠ 0 := by
    simpa [List.length_eq_zero] using h
  simp only [hlen, if_false]
  have hk : k % (freeCells l).length < (freeCells l).length :=
    Nat.mod_lt _ (Nat.pos_of_ne_zero hlen)
  rw [List.getD_eq_getElem _ _ hk]
  exact List.getElem_mem hk

theorem placeFood_not_on_snake (l : List Cell) (k : Nat) (h : freeCells l ≠ []) :
    placeFood l k ∉ l :=
  ((mem_freeCells l (placeFood l k)).mp (placeFood_mem_free l k h)).2

theorem freeCells_eq_nil_of_full (l : List Cell) (hfull : ∀ c ∈ allCells, c ∈ l) :
    freeCells l = [] := by
  unfold freeCells
  rw [List.filter_eq_nil_iff]
  intro c hc
  have hany : (l.any fun s => s.x == c.x && s.y == c.y) = true := by
    simp only [List.any_eq_true, Bool.and_eq_true, beq_iff_eq]
    exact ⟨c, hfull c hc, rfl, rfl⟩
  simp [hany]

theorem placeFood_of_full (l : List Cell) (k : Nat) (hfull : ∀ c ∈ allCells, c ∈ l) :
    placeFood l k = ⟨0, 0⟩ := by
  unfold placeFood
  simp [freeCells_eq_nil_of_full l hfull]

theorem placeFood_uniform_index (l : List Cell) (j : Nat) (hj : j < (freeCells l).length) :
    placeFood l j = (freeCells l).getD j ⟨0, 0⟩ := by
  unfold placeFood
  have hlen : (freeCells l).length ≠ 0 := by omega
  simp only [hlen, if_false, Nat.mod_eq_of_lt hj]

theorem newHead_def (s : GameState) :
    newHead s =
      ⟨jsmod ((s.snake.headD ⟨0, 0⟩).x + (appliedDir s).x) GRID_COLS,
       jsmod ((s.snake.headD ⟨0, 0⟩).y + (appliedDir s).y) GRID_ROWS⟩ := rfl

theorem hitsSelf_iff (s : GameState) : hitsSelf s = true ↔ newHead s ∈ s.snake := by
  simp only [hitsSelf, List.any_eq_true, Bool.and_eq_true, beq_iff_eq]
  constructor
  · rintro ⟨c, hc, hx, hy⟩
    rwa [(cell_eq_iff c (newHead s)).mpr ⟨hx, hy⟩] at hc
  · intro h
    exact ⟨newHead s, h, rfl, rfl⟩

theorem tick_of_hitsSelf (s : GameState) (k : Nat) (h : hitsSelf s = true) :
    tick s k =
      ({ s with dir := appliedDir s, nextDir := none, running := false,
                highScore := max s.highScore s.score },
       some (max s.highScore s.score)) := by
  simp [tick, h]

theorem trySetDir_dir (s : GameState) (nd : Cell) : (trySetDir s nd).dir = s.dir := by
  unfold trySetDir
  split <;> rfl

theorem foldl_trySetDir_dir (ds : List Cell) (s : GameState) :
    (ds.foldl trySetDir s).dir = s.dir := by
  induction ds generalizing s with
  | nil => rfl
  | cons d ds ih => rw [List.foldl_cons, ih, trySetDir_dir]

/-- Any queued direction is never the exact reverse of the active direction,
and this survives any further sequence of `trySetDir` calls. -/
theorem foldl_trySetDir_nextDir (ds : List Cell) (s : GameState)
    (h : ∀ d, s.nextDir = some d → ¬(s.dir.x + d.x = 0 ∧ s.dir.y + d.y = 0)) :
    ∀ d, (ds.foldl trySetDir s).nextDir = some d →
      ¬(s.dir.x + d.x = 0 ∧ s.dir.y + d.y = 0) := by
  induction ds generalizing s with
  | nil => exact h
  | cons d0 ds ih =>
    rw [List.foldl_cons]
    intro d hd
    have h2 : ∀ d1, (trySetDir s d0).nextDir = some d1 →
        ¬((trySetDir s d0).dir.x + d1.x = 0 ∧ (trySetDir s d0).dir.y + d1.y = 0) := by
      intro d1 hd1
      rw [trySetDir_dir]
      unfold trySetDir at hd1
      split at hd1
      · exact h d1 hd1
      · simp only [Option.some.injEq] at hd1
        subst hd1
        rename_i hguard
        exact hguard
    have h3 := ih (trySetDir s d0) h2 d hd
    rwa [trySetDir_dir] at h3

end ChatGPT

namespace Agent

theorem newHeadA_def (s : AState) :
    newHeadA s =
      ⟨wrap ((s.snake.headD ⟨0, 0⟩).x + s.velocity.x),
       wrap ((s.snake.headD ⟨0, 0⟩).y + s.velocity.y)⟩ := rfl

theorem hitsSelfA_iff (s : AState) : hitsSelfA s = true ↔ newHeadA s ∈ s.snake := by
  simp only [hitsSelfA, List.any_eq_true, Bool.and_eq_true, beq_iff_eq]
  constructor
  · rintro ⟨c, hc, hx, hy⟩
    rwa [(cell_eq_iff c (newHeadA s)).mpr ⟨hx, hy⟩] at hc
  · intro h
    exact ⟨newHeadA s, h, rfl, rfl⟩

theorem update_of_hitsSelfA (s : AState) (r1 r2 : Nat) (h : hitsSelfA s = true) :
    update s r1 r2 =
      (reset { s with highScore := max s.highScore s.score } r1 r2,
       if s.score > s.highScore then some s.score else none) := by
  by_cases hgt : s.score > s.highScore
  · simp only [update, h, if_true, hgt, reset]
    simp [Nat.max_eq_right (Nat.le_of_lt hgt)]
  · simp only [update, h, if_true, hgt, if_false, reset]
    simp [Nat.max_eq_left (Nat.le_of_not_lt hgt)]

end Agent

/-! ### Claims -/

/-- C1 (amended): in the chatgpt implementation, a tick that detects a
self-collision is terminal and atomic — the snake body, score, speed and food
are unchanged, the state stops running, and the high score becomes
`max highScore score` (so it changes only if the run's score exceeded it).
In the agent implementation the self-collision tick updates the high score
only if the run's score exceeded it and then immediately resets the state to
a fresh initial state instead of leaving the body unchanged. -/
theorem C1_terminal_tick (s : ChatGPT.GameState) (k : Nat)
    (t : Agent.AState) (r1 r2 : Nat)
    (hs : ChatGPT.hitsSelf s = true) (ht : Agent.hitsSelfA t = true) :
    ((ChatGPT.tick s k).1.snake = s.snake ∧
     (ChatGPT.tick s k).1.score = s.score ∧
     (ChatGPT.tick s k).1.speed = s.speed ∧
     (ChatGPT.tick s k).1.food = s.food ∧
     (ChatGPT.tick s k).1.running = false ∧
     (ChatGPT.tick s k).1.highScore = max s.highScore s.score ∧
     (s.score ≤ s.highScore → (ChatGPT.tick s k).1.highScore = s.highScore)) ∧
    ((Agent.update t r1 r2).1 =
        Agent.reset { t with highScore := max t.highScore t.score } r1 r2 ∧
     (Agent.update t r1 r2).1.highScore = max t.highScore t.score ∧
     (t.score ≤ t.highScore → (Agent.update t r1 r2).1.highScore = t.highScore)) := by
  rw [ChatGPT.tick_of_hitsSelf s k hs, Agent.update_of_hitsSelfA t r1 r2 ht]
  refine ⟨⟨rfl, rfl, rfl, rfl, rfl, rfl, fun hle => ?_⟩, rfl, rfl, fun hle => ?_⟩
  · simp [Nat.max_eq_left hle]
  · simp [Agent.reset, Nat.max_eq_left hle]

/-- C1 witness: a concrete self-colliding tick of each implementation. -/
theorem C1_terminal_tick_witness :
    (ChatGPT.tick exTermCG 0).1.running = false ∧
    (Agent.update exTermAG 1 2).1.highScore = max exTermAG.highScore exTermAG.score :=
  ⟨(C1_terminal_tick exTermCG 0 exTermAG 1 2 (by decide) (by decide)).1.2.2.2.2.1,
   (C1_terminal_tick exTermCG 0 exTermAG 1 2 (by decide) (by decide)).2.2.1⟩

/-- C1 counterexample: in the agent implementation, a self-collision tick does
not leave the snake body positions unchanged — it resets the snake to the
initial single-segment body. -/
theorem C1_counterexample :
    Agent.hitsSelfA exTermAG = true ∧
    (Agent.update exTermAG 1 2).1.snake ≠ exTermAG.snake := by
  exact ⟨by decide, by decide⟩

/-- C5 (confirmed): both implementations test the tick's new head against
every cell of the current body, including the tail cell about to be vacated:
a state whose new head equals the current last (tail) cell registers a
terminal self-collision. -/
theorem C5_tail_collision (s : ChatGPT.GameState) (k : Nat)
    (t : Agent.AState) (r1 r2 : Nat)
    (hsl : s.snake.getLast? = some (ChatGPT.newHead s))
    (htl : t.snake.getLast? = some (Agent.newHeadA t)) :
    ChatGPT.hitsSelf s = true ∧
    (ChatGPT.tick s k).1.running = false ∧
    (ChatGPT.tick s k).1.snake = s.snake ∧
    Agent.hitsSelfA t = true ∧
    (Agent.update t r1 r2).1 =
      Agent.reset { t with highScore := max t.highScore t.score } r1 r2 := by
  have hcg : ChatGPT.hitsSelf s = true :=
    (ChatGPT.hitsSelf_iff s).mpr (mem_of_getLast?_eq hsl)
  have hag : Agent.hitsSelfA t = true :=
    (Agent.hitsSelfA_iff t).mpr (mem_of_getLast?_eq htl)
  rw [ChatGPT.tick_of_hitsSelf s k hcg, Agent.update_of_hitsSelfA t r1 r2 hag]
  exact ⟨hcg, rfl, rfl, hag, rfl⟩

/-- C5 witness: a 2×2 looped snake moving into its own tail cell in each
implementation. -/
theorem C5_tail_collision_witness :
    ChatGPT.hitsSelf exTailCG = true ∧ (ChatGPT.tick exTailCG 0).1.running = false :=
  ⟨(C5_tail_collision exTailCG 0 exTailAG 1 2 (by decide) (by decide)).1,
   (C5_tail_collision exTailCG 0 exTailAG 1 2 (by decide) (by decide)).2.1⟩

/-- C6 (confirmed): in both implementations the new head is the current head
plus the effective direction, each axis reduced modulo the 20-cell grid
dimension (for the agent implementation's one-step clamp this needs the head
in range and a unit velocity, which the data model guarantees); in particular
a head at `(COLS-1, r)` moving `(1,0)` wraps to `(0, r)`. -/
theorem C6_wraparound (s : ChatGPT.GameState) (t : Agent.AState) (r : Int)
    (hx : 0 ≤ (t.snake.headD ⟨0, 0⟩).x ∧ (t.snake.headD ⟨0, 0⟩).x < 20)
    (hy : 0 ≤ (t.snake.headD ⟨0, 0⟩).y ∧ (t.snake.headD ⟨0, 0⟩).y < 20)
    (hv : t.velocity ∈ ([⟨1, 0⟩, ⟨-1, 0⟩, ⟨0, 1⟩, ⟨0, -1⟩] : List Cell))
    (hr : 0 ≤ r ∧ r < 20) :
    ChatGPT.newHead s =
      ⟨((s.snake.headD ⟨0, 0⟩).x + (ChatGPT.appliedDir s).x) % ChatGPT.GRID_COLS,
       ((s.snake.headD ⟨0, 0⟩).y + (ChatGPT.appliedDir s).y) % ChatGPT.GRID_ROWS⟩ ∧
    Agent.newHeadA t =
      ⟨((t.snake.headD ⟨0, 0⟩).x + t.velocity.x) % Agent.ROWS,
       ((t.snake.headD ⟨0, 0⟩).y + t.velocity.y) % Agent.ROWS⟩ ∧
    (∀ s2 : ChatGPT.GameState, s2.snake.headD ⟨0, 0⟩ = ⟨19, r⟩ →
       ChatGPT.appliedDir s2 = ⟨1, 0⟩ → ChatGPT.newHead s2 = ⟨0, r⟩) := by
  refine ⟨?_, ?_, ?_⟩
  · rw [ChatGPT.newHead_def, cell_eq_iff]
    simp only [ChatGPT.GRID_COLS, ChatGPT.GRID_ROWS]
    exact ⟨jsmod_eq_emod _, jsmod_eq_emod _⟩
  · obtain ⟨c1, c2⟩ := hx
    obtain ⟨c3, c4⟩ := hy
    simp only [List.mem_cons, List.not_mem_nil, or_false] at hv
    rw [Agent.newHeadA_def, cell_eq_iff]
    unfold Agent.wrap
    simp only [Agent.ROWS]
    rcases hv with h | h | h | h <;> simp only [h] <;>
      refine ⟨?_, ?_⟩ <;> split_ifs <;> omega
  · intro s2 hh hd
    rw [ChatGPT.newHead_def, hh, hd, cell_eq_iff]
    simp only [ChatGPT.GRID_COLS, ChatGPT.GRID_ROWS]
    constructor
    · rw [jsmod_eq_emod]
      decide
    · rw [jsmod_eq_emod]
      simpa using Int.emod_eq_of_lt hr.1 hr.2

/-- C2 (amended): in the chatgpt implementation every non-terminal tick keeps
the food off the snake (given the incoming invariant that food is off the
snake and that the grown snake does not fill the grid), the free list is
exactly the grid cells not occupied by the grown snake, and the random index
selects the `j`-th free cell, i.e. the draw is uniform over the free cells.
The agent implementation instead draws the new apple uniformly from the whole
grid, so the resulting food may coincide with the resulting snake. -/
theorem C2_food_placement (s : ChatGPT.GameState) (k : Nat)
    (hnc : ChatGPT.hitsSelf s = false)
    (hfood : s.food ∉ s.snake)
    (hfree : ChatGPT.freeCells (ChatGPT.newHead s :: s.snake) ≠ []) :
    (ChatGPT.tick s k).1.food ∉ (ChatGPT.tick s k).1.snake ∧
    (∀ c : Cell, c ∈ ChatGPT.freeCells (ChatGPT.newHead s :: s.snake) ↔
       (c ∈ ChatGPT.allCells ∧ c ∉ (ChatGPT.newHead s :: s.snake))) ∧
    (∀ j : Nat, j < (ChatGPT.freeCells (ChatGPT.newHead s :: s.snake)).length →
       ChatGPT.placeFood (ChatGPT.newHead s :: s.snake) j =
         (ChatGPT.freeCells (ChatGPT.newHead s :: s.snake)).getD j ⟨0, 0⟩) := by
  refine ⟨?_, fun c => ChatGPT.mem_freeCells _ c, fun j hj => ChatGPT.placeFood_uniform_index _ j hj⟩
  by_cases heat : (ChatGPT.newHead s).x = s.food.x ∧ (ChatGPT.newHead s).y = s.food.y
  · simp only [ChatGPT.tick, hnc, Bool.false_eq_true, if_false, heat.1, heat.2, and_self,
      if_true]
    exact ChatGPT.placeFood_not_on_snake _ k hfree
  · simp only [ChatGPT.tick, hnc, Bool.false_eq_true, if_false, heat, if_false]
    intro hmem
    rcases List.mem_cons.mp (List.dropLast_subset _ hmem) with hfh | hfs
    · exact heat ((cell_eq_iff _ _).mp hfh.symm)
    · exact hfood hfs

/-- C2 witness: a concrete eating tick of the chatgpt implementation. -/
theorem C2_food_placement_witness :
    (ChatGPT.tick exEatCG 0).1.food ∉ (ChatGPT.tick exEatCG 0).1.snake :=
  (C2_food_placement exEatCG 0 (by decide) (by decide) (by decide)).1

/-- C2 counterexample: a non-terminal eating tick of the agent implementation
whose random draw places the new apple on the grown snake. -/
theorem C2_counterexample :
    Agent.hitsSelfA exEatAG = false ∧
    (Agent.update exEatAG 5 5).1.apple ∈ (Agent.update exEatAG 5 5).1.snake := by
  exact ⟨by decide, by decide⟩

/-- C3 (amended): in the chatgpt implementation a direction request equal to
the exact negation of the active direction is a no-op, and after any sequence
of requests between two ticks the direction the next tick applies is never
the negation of the direction the previous tick applied.  In the agent
implementation a single reversal keypress is likewise a no-op, but the key
handler mutates the live velocity immediately, so two keypresses between two
ticks can make the next tick apply the exact negation (see the
counterexample). -/
theorem C3_no_reversal (s : ChatGPT.GameState) (ds : List Cell)
    (v : Cell) (kk : Agent.Key)
    (hq : s.nextDir = none) (hd : s.dir ≠ ⟨0, 0⟩)
    (hv : v ∈ ([⟨1, 0⟩, ⟨-1, 0⟩, ⟨0, 1⟩, ⟨0, -1⟩] : List Cell))
    (hk : Agent.keyDir kk = negDir v) :
    ChatGPT.trySetDir s (negDir s.dir) = s ∧
    ChatGPT.appliedDir (ds.foldl ChatGPT.trySetDir s) ≠ negDir s.dir ∧
    Agent.handleKey v kk = v := by
  refine ⟨?_, ?_, ?_⟩
  · unfold ChatGPT.trySetDir negDir
    simp
  · have hdir := ChatGPT.foldl_trySetDir_dir ds s
    have hguard := ChatGPT.foldl_trySetDir_nextDir ds s
      (by rw [hq]; intro d hcontra; cases hcontra)
    intro hcontra
    unfold ChatGPT.appliedDir at hcontra
    cases hnd : (ds.foldl ChatGPT.trySetDir s).nextDir with
    | none =>
      rw [hnd, Option.getD_none, hdir] at hcontra
      have := (cell_eq_iff _ _).mp hcontra
      unfold negDir at this
      apply hd
      rw [cell_eq_iff]
      obtain ⟨h1, h2⟩ := this
      constructor <;> [skip; skip] <;> simp at h1 h2 ⊢ <;> omega
    | some d =>
      rw [hnd, Option.getD_some] at hcontra
      subst hcontra
      apply hguard (negDir s.dir) hnd
      unfold negDir
      constructor <;> simp
  · simp only [List.mem_cons, List.not_mem_nil, or_false] at hv
    rcases hv with h | h | h | h <;> subst h <;> cases kk <;> revert hk <;> decide

/-- C3 witness: a fresh chatgpt state, the request sequence up-then-left, and
a single reversal keypress on the agent side. -/
theorem C3_no_reversal_witness :
    ChatGPT.appliedDir ([⟨0, -1⟩, ⟨-1, 0⟩].foldl ChatGPT.trySetDir exInitCG) ≠
      negDir exInitCG.dir ∧
    Agent.handleKey ⟨1, 0⟩ Agent.Key.left = ⟨1, 0⟩ :=
  ⟨(C3_no_reversal exInitCG [⟨0, -1⟩, ⟨-1, 0⟩] ⟨1, 0⟩ Agent.Key.left
      (by decide) (by decide) (by decide) (by decide)).2.1,
   (C3_no_reversal exInitCG [⟨0, -1⟩, ⟨-1, 0⟩] ⟨1, 0⟩ Agent.Key.left
      (by decide) (by decide) (by decide) (by decide)).2.2⟩

/-- C3 counterexample: in the agent implementation, pressing Up then Left
while moving right flips the live velocity to the exact negation of the
direction the previous tick applied, and the next update moves the head by
that negation. -/
theorem C3_counterexample :
    Agent.handleKey (Agent.handleKey ⟨1, 0⟩ Agent.Key.up) Agent.Key.left =
      negDir ⟨1, 0⟩ ∧
    (Agent.update
        { snake := [⟨5, 5⟩],
          velocity := Agent.handleKey (Agent.handleKey ⟨1, 0⟩ Agent.Key.up) Agent.Key.left,
          apple := ⟨9, 9⟩, score := 0, speed := 8, highScore := 0,
          running := true } 1 2).1.snake = [⟨4, 5⟩] := by
  exact ⟨by decide, by decide⟩

/-- C4 (confirmed): in both implementations, a non-terminal tick whose new
head equals the food grows the snake by exactly one cell and increments the
score by exactly 1; otherwise both length and score are unchanged. -/
theorem C4_growth (s : ChatGPT.GameState) (k : Nat) (t : Agent.AState) (r1 r2 : Nat)
    (hnc : ChatGPT.hitsSelf s = false) (hnct : Agent.hitsSelfA t = false) :
    ((ChatGPT.newHead s = s.food →
        (ChatGPT.tick s k).1.snake.length = s.snake.length + 1 ∧
        (ChatGPT.tick s k).1.score = s.score + 1) ∧
     (ChatGPT.newHead s ≠ s.food →
        (ChatGPT.tick s k).1.snake.length = s.snake.length ∧
        (ChatGPT.tick s k).1.score = s.score)) ∧
    ((Agent.newHeadA t = t.apple →
        (Agent.update t r1 r2).1.snake.length = t.snake.length + 1 ∧
        (Agent.update t r1 r2).1.score = t.score + 1) ∧
     (Agent.newHeadA t ≠ t.apple →
        (Agent.update t r1 r2).1.snake.length = t.snake.length ∧
        (Agent.update t r1 r2).1.score = t.score)) := by
  refine ⟨⟨fun heat => ?_, fun hne => ?_⟩, fun heat => ?_, fun hne => ?_⟩
  · obtain ⟨h1, h2⟩ := (cell_eq_iff _ _).mp heat
    simp [ChatGPT.tick, hnc, h1, h2]
  · have hcond : ¬((ChatGPT.newHead s).x = s.food.x ∧ (ChatGPT.newHead s).y = s.food.y) :=
      fun hc => hne ((cell_eq_iff _ _).mpr hc)
    simp only [ChatGPT.tick, hnc, Bool.false_eq_true, if_false, hcond]
    refine ⟨?_, ?_⟩ <;>
      first
        | trivial
        | · simp only [List.length_dropLast, List.length_cons]
            omega
  · obtain ⟨h1, h2⟩ := (cell_eq_iff _ _).mp heat
    simp [Agent.update, hnct, h1, h2]
  · have hcond : ¬((Agent.newHeadA t).x = t.apple.x ∧ (Agent.newHeadA t).y = t.apple.y) :=
      fun hc => hne ((cell_eq_iff _ _).mpr hc)
    simp only [Agent.update, hnct, Bool.false_eq_true, if_false, hcond]
    refine ⟨?_, ?_⟩ <;>
      first
        | trivial
        | · simp only [List.length_dropLast, List.length_cons]
            omega

/-- C4 witness: concrete eating ticks of both implementations. -/
theorem C4_growth_witness :
    (ChatGPT.tick exEatCG 0).1.snake.length = exEatCG.snake.length + 1 ∧
    (Agent.update exEatAG 5 5).1.score = exEatAG.score + 1 :=
  ⟨((C4_growth exEatCG 0 exEatAG 5 5 (by decide) (by decide)).1.1 (by decide)).1,
   ((C4_growth exEatCG 0 exEatAG 5 5 (by decide) (by decide)).2.1 (by decide)).2⟩

/-- C6 witness: heads at the right edge `(19,7)` moving right in both
implementations. -/
theorem C6_wraparound_witness :
    ChatGPT.newHead exWrapCG =
      ⟨((exWrapCG.snake.headD ⟨0, 0⟩).x + (ChatGPT.appliedDir exWrapCG).x) % ChatGPT.GRID_COLS,
       ((exWrapCG.snake.headD ⟨0, 0⟩).y + (ChatGPT.appliedDir exWrapCG).y) % ChatGPT.GRID_ROWS⟩ ∧
    Agent.newHeadA exWrapAG =
      ⟨((exWrapAG.snake.headD ⟨0, 0⟩).x + exWrapAG.velocity.x) % Agent.ROWS,
       ((exWrapAG.snake.headD ⟨0, 0⟩).y + exWrapAG.velocity.y) % Agent.ROWS⟩ :=
  ⟨(C6_wraparound exWrapCG exWrapAG 7 (by decide) (by decide) (by decide)
      (by decide)).1,
   (C6_wraparound exWrapCG exWrapAG 7 (by decide) (by decide) (by decide)
      (by decide)).2.1⟩

/-- C7 (amended): the chatgpt implementation's food placement is total and
returns the deterministic fallback `(0,0)` whenever the snake occupies every
grid cell; the agent implementation's food placement is total and always
returns a grid cell, but it ignores occupancy entirely, so on a full grid it
returns its random cell rather than the fallback. -/
theorem C7_fails_closed (l : List Cell) (k : Nat) (r1 r2 : Nat)
    (hfull : ∀ c ∈ ChatGPT.allCells, c ∈ l) :
    ChatGPT.placeFood l k = ⟨0, 0⟩ ∧
    (0 ≤ (Agent.randomApple r1 r2).x ∧ (Agent.randomApple r1 r2).x < 20 ∧
     0 ≤ (Agent.randomApple r1 r2).y ∧ (Agent.randomApple r1 r2).y < 20) := by
  refine ⟨ChatGPT.placeFood_of_full l k hfull, ?_⟩
  unfold Agent.randomApple
  have h1 : r1 % 20 < 20 := Nat.mod_lt _ (by omega)
  have h2 : r2 % 20 < 20 := Nat.mod_lt _ (by omega)
  refine ⟨?_, ?_, ?_, ?_⟩ <;> simp only [] <;> omega

/-- C7 witness: the snake occupying the whole grid, where the chatgpt
implementation's placement returns the fallback cell. -/
theorem C7_fails_closed_witness :
    ChatGPT.placeFood ChatGPT.allCells 0 = ⟨0, 0⟩ :=
  (C7_fails_closed ChatGPT.allCells 0 7 3 (fun _ hc => hc)).1

/-- C7 counterexample: with the snake occupying the entire grid (the full
cell list, so no free cell exists), the agent implementation's food placement
— which takes no account of occupancy — returns its random cell `(7,3)`, not
the deterministic fallback `(0,0)`. -/
theorem C7_counterexample :
    (∀ c ∈ ChatGPT.allCells, c ∈ ChatGPT.allCells) ∧
    Agent.randomApple 7 3 = ⟨7, 3⟩ ∧ Agent.randomApple 7 3 ≠ ⟨0, 0⟩ :=
  ⟨fun _ hc => hc, by decide, by decide⟩

/-- C8 (amended): the chatgpt implementation writes the high-score store on
every game-over tick — even when the run's score does not exceed the stored
value — but the written value is `max stored score`, so the store is never
lowered and changes exactly when the score exceeds it; a non-terminal tick
never writes.  The agent implementation's explicit store writes happen
exactly on a self-collision whose run score exceeds the stored value.  On
load a missing stored value reads as 0. -/
theorem C8_highscore_store (s s2 : ChatGPT.GameState) (k k2 : Nat)
    (t : Agent.AState) (r1 r2 : Nat)
    (h1 : ChatGPT.hitsSelf s = true) (h2 : ChatGPT.hitsSelf s2 = false) :
    ((ChatGPT.tick s k).2 = some (max s.highScore s.score) ∧
     s.highScore ≤ max s.highScore s.score ∧
     (max s.highScore s.score ≠ s.highScore ↔ s.highScore < s.score)) ∧
    (ChatGPT.tick s2 k2).2 = none ∧
    ((Agent.update t r1 r2).2 =
       if Agent.hitsSelfA t = true ∧ t.highScore < t.score then some t.score
       else none) ∧
    loadHighScore none = 0 := by
  refine ⟨⟨?_, Nat.le_max_left _ _, by omega⟩, ?_, ?_, rfl⟩
  · rw [ChatGPT.tick_of_hitsSelf s k h1]
  · simp only [ChatGPT.tick, h2, Bool.false_eq_true, if_false]
    split <;> rfl
  · by_cases hcol : Agent.hitsSelfA t = true
    · rw [Agent.update_of_hitsSelfA t r1 r2 hcol]
      simp only [hcol, true_and]
    · have hcol' : Agent.hitsSelfA t = false := by
        revert hcol
        cases Agent.hitsSelfA t <;> simp
      simp only [Agent.update, hcol', Bool.false_eq_true, if_false, false_and]
      split <;> rfl

/-- C8 witness: a concrete game-over tick (which writes) and a concrete
non-terminal tick (which does not). -/
theorem C8_highscore_store_witness :
    (ChatGPT.tick exTermCG 0).2 = some (max exTermCG.highScore exTermCG.score) ∧
    (ChatGPT.tick exEatCG 0).2 = none :=
  ⟨(C8_highscore_store exTermCG exEatCG 0 0 exEatAG 5 5 (by decide) (by decide)).1.1,
   (C8_highscore_store exTermCG exEatCG 0 0 exEatAG 5 5 (by decide) (by decide)).2.1⟩

/-- C8 counterexample: a chatgpt game-over tick with run score 3 and stored
high score 5 writes the store (value 5) even though the score does not
exceed the stored value, refuting "written exactly when the score exceeds
the stored value". -/
theorem C8_counterexample :
    (ChatGPT.tick exTermCG2 0).2 = some 5 ∧
    ¬ exTermCG2.highScore < exTermCG2.score := by
  exact ⟨by decide, by decide⟩

/-- C9 (confirmed): both implementations' reset produces the fresh initial
state (fixed initial snake, direction, speed, score 0, running, freshly
placed food) while carrying over the high score unchanged; the agent restart
button's store write can only raise the stored value. -/
theorem C9_reset_fresh (s : ChatGPT.GameState) (k : Nat)
    (t : Agent.AState) (r1 r2 : Nat) :
    ChatGPT.resetGame s k = ChatGPT.initState s.highScore k ∧
    (ChatGPT.resetGame s k).highScore = s.highScore ∧
    Agent.reset t r1 r2 =
      { Agent.initAState t.highScore with apple := Agent.randomApple r1 r2 } ∧
    (Agent.reset t r1 r2).highScore = t.highScore ∧
    t.highScore ≤ (Agent.restartClick t r1 r2).1.highScore ∧
    (∀ v, (Agent.restartClick t r1 r2).2 = some v → t.highScore < v) := by
  refine ⟨rfl, rfl, rfl, rfl, ?_, ?_⟩
  · unfold Agent.restartClick
    split_ifs with h
    · simp only [Agent.reset]
      omega
    · simp only [Agent.reset]
      exact Nat.le_refl _
  · intro v hv
    unfold Agent.restartClick at hv
    split_ifs at hv with h
    injection hv with hv2
    omega

/-- C10 (confirmed): the run invariant `score = snake length − initial
length` (initial length 3 for the chatgpt implementation, 1 for the agent
implementation) is established by reset and preserved by every tick of
either implementation. -/
theorem C10_score_length_invariant (s : ChatGPT.GameState) (k j : Nat)
    (t : Agent.AState) (r1 r2 : Nat)
    (hinv : s.score + 3 = s.snake.length)
    (hinvt : t.score + 1 = t.snake.length) :
    (ChatGPT.resetGame s j).score + 3 = (ChatGPT.resetGame s j).snake.length ∧
    (ChatGPT.tick s k).1.score + 3 = (ChatGPT.tick s k).1.snake.length ∧
    (Agent.reset t r1 r2).score + 1 = (Agent.reset t r1 r2).snake.length ∧
    (Agent.update t r1 r2).1.score + 1 = (Agent.update t r1 r2).1.snake.length := by
  refine ⟨rfl, ?_, rfl, ?_⟩
  · by_cases hc : ChatGPT.hitsSelf s = true
    · rw [ChatGPT.tick_of_hitsSelf s k hc]
      simpa using hinv
    · have hc' : ChatGPT.hitsSelf s = false := by
        revert hc
        cases ChatGPT.hitsSelf s <;> simp
      simp only [ChatGPT.tick, hc', Bool.false_eq_true, if_false]
      split
      · simp only [List.length_cons]
        omega
      · simp only [List.length_dropLast, List.length_cons]
        omega
  · by_cases hca : Agent.hitsSelfA t = true
    · rw [Agent.update_of_hitsSelfA t r1 r2 hca]
      rfl
    · have hca' : Agent.hitsSelfA t = false := by
        revert hca
        cases Agent.hitsSelfA t <;> simp
      simp only [Agent.update, hca', Bool.false_eq_true, if_false]
      split
      · simp only [List.length_cons]
        omega
      · simp only [List.length_dropLast, List.length_cons]
        omega

/-- C10 witness: the invariant holds of the fresh states and is carried
through a concrete tick of each implementation. -/
theorem C10_score_length_invariant_witness :
    (ChatGPT.tick exInitCG 0).1.score + 3 = (ChatGPT.tick exInitCG 0).1.snake.length ∧
    (Agent.update (Agent.initAState 0) 1 2).1.score + 1 =
      (Agent.update (Agent.initAState 0) 1 2).1.snake.length :=
  ⟨(C10_score_length_invariant exInitCG 0 0 (Agent.initAState 0) 1 2
      (by decide) (by decide)).2.1,
   (C10_score_length_invariant exInitCG 0 0 (Agent.initAState 0) 1 2
      (by decide) (by decide)).2.2.2⟩

end SnakeProof
